import Mathlib

/-!
# VoiceFlow orchestration pipeline — shallow embedding

This file embeds the orchestration-relevant parts of the VoiceFlow
repository in Lean 4 and proves (or refutes) the specification claims
about them.  Each definition is translated from one Python function of
the repository, keeping its name where Lean allows it:

* `shared/shared/models.py` — `TaskStatus`, `JobMode`, `TaskResultResponse`
* `services/api-gateway/main.py` — `transcribe_audio`, `synthesize_text`,
  `get_task_result`
* `services/orchestrator/tasks.py` — `_schedule_cleanup`,
  `process_pipeline` (with Celery's retry driver made explicit)
* `services/tts-service/main.py` — `synthesize_speech`
* `services/stt-service/main.py` — the object fetch + inference call
* `services/cleanup-worker/main.py` — `process_cleanup_task`
* `client-library/voiceflow/async_client.py` — the polling loops

External collaborators (MinIO object storage, the Redis-backed Celery
broker/result backend, the Triton inference backends, and httpx) are
modelled as explicit state components and injected outcome parameters.
-/

namespace VoiceFlow

/-! ## shared/shared/models.py -/

/-- `TaskStatus` enum: PENDING / SUCCESS / FAILED. -/
inductive TaskStatus where
  | pending
  | success
  | failed
deriving DecidableEq, Repr

/-- `JobMode` enum: V2T = "v2t" (voice to text), T2V = "t2v" (text to voice).
The Celery task receives the mode as its JSON string value, so we keep the
string form alongside. -/
inductive JobMode where
  | v2t
  | t2v
deriving DecidableEq, Repr

/-- `JobMode.value`: the JSON string sent over the wire. -/
def JobMode.value : JobMode → String
  | .v2t => "v2t"
  | .t2v => "t2v"

/-- `TaskResultResponse`: the client-facing result record returned by the
gateway's `GET /v1/tasks/{task_id}` endpoint.  Optional fields default to
`None` exactly as in the pydantic model. -/
structure TaskResultResponse where
  task_id : String
  status : TaskStatus
  transcribed_text : Option String := none
  audio_url : Option String := none
  error_message : Option String := none
deriving DecidableEq, Repr

/-- `TranscriptionResponse` / `SynthesisResponse`: the submission replies
(they have the same shape, `{task_id, status}`). -/
structure SubmissionResponse where
  task_id : String
  status : TaskStatus
deriving DecidableEq, Repr

/-- `HTTPException(status_code, detail)` as raised by the FastAPI handlers. -/
structure HTTPException where
  status_code : Nat
  detail : String
deriving DecidableEq, Repr

/-! ## services/api-gateway/main.py — submission endpoints

The gateway's side effects are made explicit: the response (or raised
`HTTPException`), the list of Celery work items sent with `send_task`, and
the list of objects uploaded to the `unprocessed` bucket. -/

/-- The `input_data` dict of a work item: `{"input_object_name": ...}` for
V2T, `{"text": ...}` for T2V. -/
structure InputData where
  input_object_name : Option String := none
  text : Option String := none
deriving DecidableEq, Repr

/-- A Celery work item: `send_task('tasks.process_pipeline',
args=[mode, input_data], task_id=task_id)`. -/
structure WorkItem where
  task_id : String
  mode : String
  input_data : InputData
deriving DecidableEq, Repr

/-- An uploaded multipart file: `UploadFile` (filename + raw bytes). -/
structure UploadFileIn where
  filename : String
  content : List Nat
deriving DecidableEq, Repr

/-- Outcome of one submission call: the HTTP response or exception,
the work items enqueued, and the objects uploaded. -/
structure SubmitOutcome where
  response : Except HTTPException SubmissionResponse
  enqueued : List WorkItem
  uploaded : List (String × List Nat)
deriving Repr

/-- Python's `str.strip()`: drop unicode whitespace from both ends.
Written with structural recursion on the character list so that it
evaluates by `decide`. -/
def pyStrip (s : String) : String :=
  ⟨((s.toList.dropWhile Char.isWhitespace).reverse.dropWhile Char.isWhitespace).reverse⟩

/-- `transcribe_audio` (`POST /v1/transcribe`): generate `task_id`,
derive `input_object_name = f"{task_id}_{audio_file.filename}"`, upload the
file to the unprocessed bucket (`uploadResult` injects the MinIO outcome;
on failure the handler raises HTTP 500 before `send_task` is reached),
then enqueue the V2T work item and answer `{task_id, PENDING}`.
Note: the handler performs no validation of the audio content. -/
def transcribe_audio (task_id : String) (audio_file : UploadFileIn)
    (uploadResult : Except String Unit) : SubmitOutcome :=
  let input_object_name := task_id ++ "_" ++ audio_file.filename
  match uploadResult with
  | .error e =>
      { response := .error ⟨500, "Failed to upload file: " ++ e⟩
        enqueued := []
        uploaded := [] }
  | .ok _ =>
      { response := .ok ⟨task_id, .pending⟩
        enqueued := [⟨task_id, JobMode.v2t.value, { input_object_name := some input_object_name }⟩]
        uploaded := [(input_object_name, audio_file.content)] }

/-- `synthesize_text` (`POST /v1/synthesize`): reject empty / whitespace-only
text with HTTP 400 (`if not text.strip()`), otherwise enqueue the T2V work
item carrying `text.strip()` and answer `{task_id, PENDING}`. -/
def synthesize_text (task_id : String) (text : String) : SubmitOutcome :=
  if pyStrip text = "" then
    { response := .error ⟨400, "Text content is required"⟩
      enqueued := []
      uploaded := [] }
  else
    { response := .ok ⟨task_id, .pending⟩
      enqueued := [⟨task_id, JobMode.t2v.value, { text := some (pyStrip text) }⟩]
      uploaded := [] }

/-! ## services/api-gateway/main.py — result endpoint -/

/-- The dict returned by `process_pipeline`: exactly one of
`{"transcribed_text": ...}` or `{"output_object_name": ...}` in the source,
modelled with both optional keys since `get_task_result` probes each key
independently. -/
structure PipelineResult where
  transcribed_text : Option String := none
  output_object_name : Option String := none
deriving DecidableEq, Repr

/-- The state of a Celery `AsyncResult` as `get_task_result` observes it:
not ready (`ready()` false — this is also what Celery reports for a task id
it has never seen), failed (`failed()` true, with `task.info` supplying the
error), revoked (ready but neither failed nor successful), or succeeded
with the pipeline's result dict. -/
inductive CeleryState where
  | pending
  | failure (info : Option String)
  | revoked
  | success (result : PipelineResult)
deriving DecidableEq, Repr

/-- The Celery result backend: a partial map from task id to recorded
state.  `AsyncResult(task_id)` on an id the backend has never recorded
reports PENDING (not ready) — Celery has no notion of an unknown id. -/
def asyncResultState (backend : String → Option CeleryState) (task_id : String) :
    CeleryState :=
  (backend task_id).getD .pending

/-- `get_task_result` (`GET /v1/tasks/{task_id}`), branch for branch:
not ready → PENDING; `failed()` → FAILED with
`task.info.get('error', 'Task failed') if task.info else 'Task failed'`;
ready but not successful → FAILED "Task was not successful"; otherwise
SUCCESS, presigning `output_object_name` into `audio_url` (the presigning
itself is the MinIO client's, injected as `presign`) and copying
`transcribed_text`.  Every branch returns a `TaskResultResponse`: the
handler has no not-found path and never raises for an unknown id. -/
def get_task_result (presign : String → String) (task_id : String)
    (st : CeleryState) : TaskResultResponse :=
  match st with
  | .pending => { task_id := task_id, status := .pending }
  | .failure info =>
      { task_id := task_id, status := .failed
        error_message := some (info.getD "Task failed") }
  | .revoked =>
      { task_id := task_id, status := .failed
        error_message := some "Task was not successful" }
  | .success result =>
      { task_id := task_id, status := .success
        transcribed_text := result.transcribed_text
        audio_url := result.output_object_name.map presign }

end VoiceFlow

namespace VoiceFlow

/-! ## Claim theorems: submission validation and upload failure -/

/-- C1 (counterexample): an empty SpeechToText audio input is *not*
rejected.  With empty content and a successful upload, `transcribe_audio`
answers `{task_id, PENDING}` and enqueues a work item — no
`ValidationError`, a job is created, and a queue entry exists. -/
theorem transcribe_empty_audio_is_enqueued :
    (transcribe_audio "job-1" ⟨"sound.wav", []⟩ (.ok ())).response
        = .ok ⟨"job-1", .pending⟩ ∧
    (transcribe_audio "job-1" ⟨"sound.wav", []⟩ (.ok ())).enqueued ≠ [] := by
  constructor
  · rfl
  · decide

/-- C1 (amended): empty-input validation exists only on the TextToSpeech
path.  A submission whose text is whitespace-only fails immediately with
HTTP 400 ("Text content is required") and nothing is enqueued or uploaded;
an empty SpeechToText audio file, by contrast, is uploaded and enqueued
whenever the object-store upload succeeds. -/
theorem empty_input_validation_only_for_text (task_id : String) (text : String)
    (audio : UploadFileIn) (h : pyStrip text = "") :
    (synthesize_text task_id text).response = .error ⟨400, "Text content is required"⟩ ∧
    (synthesize_text task_id text).enqueued = [] ∧
    (synthesize_text task_id text).uploaded = [] ∧
    (transcribe_audio task_id audio (.ok ())).enqueued
        = [⟨task_id, "v2t", { input_object_name := some (task_id ++ "_" ++ audio.filename) }⟩] := by
  refine ⟨?_, ?_, ?_, ?_⟩ <;> simp [synthesize_text, transcribe_audio, h, JobMode.value]

/-- Witness for `empty_input_validation_only_for_text` at concrete inputs. -/
theorem empty_input_validation_only_for_text_witness :
    (synthesize_text "job-2" "  ").response = .error ⟨400, "Text content is required"⟩ ∧
    (synthesize_text "job-2" "  ").enqueued = [] ∧
    (synthesize_text "job-2" "  ").uploaded = [] ∧
    (transcribe_audio "job-2" ⟨"a.wav", []⟩ (.ok ())).enqueued
        = [⟨"job-2", "v2t", { input_object_name := some "job-2_a.wav" }⟩] :=
  empty_input_validation_only_for_text "job-2" "  " ⟨"a.wav", []⟩ (by decide)

/-! ## System state: MinIO buckets and Redis keys

`SysState` gathers the external stores the Dispatcher touches: the two
MinIO buckets (as partial maps — `put_object` on an existing name
overwrites, which is MinIO semantics), the Redis lists written with
`rpush`, and the Redis string keys written with `setex` (value plus TTL).
An absent Redis list is the empty list, as in Redis itself. -/
structure SysState where
  unprocessed : String → Option (List Nat)
  processed : String → Option (List Nat)
  redisLists : String → List String
  redisTriggers : String → Option (Nat × String)

/-- `put_object`: write `data` under `name`, overwriting any previous
object with that name (last write wins). -/
def putObject (bucket : String → Option (List Nat)) (name : String)
    (data : List Nat) : String → Option (List Nat) :=
  fun k => if k = name then some data else bucket k

/-! ## services/stt-service/main.py and services/tts-service/main.py -/

/-- The STT service's `transcribe_audio` handler: fetch
`input_object_name` from the unprocessed bucket (HTTP 404
"Could not retrieve file: ..." when the fetch fails — the MinIO exception
text is represented here by the missing object's name), then run Whisper
on the bytes.  The Triton model itself is external and injected as the
function `whisper`; its transport failures are injected upstream in the
orchestrator (`svcFail`). -/
def stt_transcribe (whisper : List Nat → String) (st : SysState)
    (input_object_name : String) : Except String String :=
  match st.unprocessed input_object_name with
  | none => .error ("Could not retrieve file: " ++ input_object_name)
  | some audio_bytes => .ok (whisper audio_bytes)

/-- `TTSResponse(output_object_name)`. -/
structure TTSResponse where
  output_object_name : String
deriving DecidableEq, Repr

/-- The TTS service's `synthesize_speech` handler: run Chatterbox
(injected as `chatterbox`) on the text, then upload the audio to the
processed bucket under `output_object_name = f"{request.task_id}.wav"` —
a name that depends on the task id alone. -/
def synthesize_speech (chatterbox : String → List Nat) (task_id : String)
    (text_to_synthesize : String) (st : SysState) : TTSResponse × SysState :=
  let raw_audio := chatterbox text_to_synthesize
  let output_object_name := task_id ++ ".wav"
  (⟨output_object_name⟩,
    { st with processed := putObject st.processed output_object_name raw_audio })

/-! ## services/orchestrator/tasks.py -/

/-- `_schedule_cleanup`: collect `input_object_name` from the input dict
and `output_object_name` from the result dict, and — only if that list is
non-empty — `rpush` it onto `files:{task_id}` and `setex` the trigger key
`cleanup:{task_id}` with the configured TTL and value `"1"`. -/
def _schedule_cleanup (ttl : Nat) (task_id : String) (input_data : InputData)
    (result_data : PipelineResult) (st : SysState) : SysState :=
  let files_to_delete :=
    (match input_data.input_object_name with | some n => [n] | none => []) ++
    (match result_data.output_object_name with | some n => [n] | none => [])
  if files_to_delete = [] then st
  else
    { st with
      redisLists := fun k =>
        if k = "files:" ++ task_id then st.redisLists k ++ files_to_delete
        else st.redisLists k
      redisTriggers := fun k =>
        if k = "cleanup:" ++ task_id then some (ttl, "1") else st.redisTriggers k }

/-- One execution of the body of `process_pipeline` (the code inside the
`with httpx.Client(...)` block), for attempt number `attempt`:

* `svcFail attempt = some detail` injects an `httpx.HTTPStatusError` for
  the backend HTTP call of that attempt; the handler turns it into
  `self.retry(exc=Exception(f"HTTP Error: {error_details}"))`;
* V2T: require `input_object_name` (else `ValueError`, retried via the
  generic `except`), call the STT service (its 404 also surfaces as an
  `HTTPStatusError`), and build `{"transcribed_text": ...}`;
* T2V: require `text`, call the TTS service, and build
  `{"output_object_name": ...}`;
* unknown mode: `ValueError("Unsupported mode: ...")`;
* on success, `_schedule_cleanup` runs and the result dict is returned;
  on any exception the state is untouched and the error goes to `retry`. -/
def process_pipeline_body (whisper : List Nat → String)
    (chatterbox : String → List Nat) (svcFail : Nat → Option String)
    (ttl : Nat) (task_id : String) (mode : String) (input_data : InputData)
    (attempt : Nat) (st : SysState) : Except String PipelineResult × SysState :=
  match svcFail attempt with
  | some detail => (.error ("HTTP Error: " ++ detail), st)
  | none =>
    if mode = "v2t" then
      match input_data.input_object_name with
      | none => (.error "input_object_name is required for V2T mode", st)
      | some name =>
        match stt_transcribe whisper st name with
        | .error detail => (.error ("HTTP Error: " ++ detail), st)
        | .ok text =>
          let final_result : PipelineResult := { transcribed_text := some text }
          (.ok final_result, _schedule_cleanup ttl task_id input_data final_result st)
    else if mode = "t2v" then
      match input_data.text with
      | none => (.error "text is required for T2V mode", st)
      | some text =>
        let res := synthesize_speech chatterbox task_id text st
        let final_result : PipelineResult :=
          { output_object_name := some res.1.output_object_name }
        (.ok final_result, _schedule_cleanup ttl task_id input_data final_result res.2)
    else
      (.error ("Unsupported mode: " ++ mode), st)

/-- Celery's retry driver for a task declared with
`@app.task(bind=True, max_retries=N)` that calls `self.retry(exc=...)` on
every exception: the body runs with `self.request.retries = r`; on
success the task succeeds; on failure, if the retry budget is not yet
exhausted the item is redelivered with `retries = r + 1`, otherwise the
exception passed to `retry` is re-raised and the task ends in FAILURE.
Returns (number of executions performed, final outcome) and the threaded
external state.  `budget` is `max_retries - r`, so the driver is called
with `r = 0` and `budget = max_retries`. -/
def celeryRun {σ α : Type} (body : Nat → σ → Except String α × σ) :
    Nat → Nat → σ → (Nat × Except String α) × σ
  | r, 0, st =>
      match body r st with
      | (out, st') => ((r + 1, out), st')
  | r, b + 1, st =>
      match body r st with
      | (.ok a, st') => ((r + 1, .ok a), st')
      | (.error _, st') => celeryRun body (r + 1) b st'

/-- `max_retries=3` from `@app.task(bind=True, max_retries=3,
default_retry_delay=10)`. -/
def MAX_RETRIES : Nat := 3

/-- `process_pipeline` as delivered by the broker: run the task body under
Celery's retry driver with `max_retries = 3`. -/
def process_pipeline (whisper : List Nat → String)
    (chatterbox : String → List Nat) (svcFail : Nat → Option String)
    (ttl : Nat) (task_id : String) (mode : String) (input_data : InputData)
    (st : SysState) : (Nat × Except String PipelineResult) × SysState :=
  celeryRun (process_pipeline_body whisper chatterbox svcFail ttl task_id mode input_data)
    0 MAX_RETRIES st

/-- The Celery result-backend record a finished `process_pipeline` leaves
behind: SUCCESS with the returned dict, or FAILURE carrying the re-raised
exception's text. -/
def terminalCeleryState : Except String PipelineResult → CeleryState
  | .ok r => .success r
  | .error e => .failure (some e)

/-- C5: when the binary-input upload to the object store fails,
`transcribe_audio` fails with HTTP 500 ("Failed to upload file: ...") and
no work item is enqueued — `send_task` is never reached, so no orphaned
queue entry exists. -/
theorem upload_failure_means_no_enqueue (task_id : String) (audio : UploadFileIn)
    (e : String) :
    (transcribe_audio task_id audio (.error e)).response
        = .error ⟨500, "Failed to upload file: " ++ e⟩ ∧
    (transcribe_audio task_id audio (.error e)).enqueued = [] ∧
    (transcribe_audio task_id audio (.error e)).uploaded = [] := by
  refine ⟨rfl, rfl, rfl⟩

end VoiceFlow

namespace VoiceFlow

/-! ## Lemmas about the Celery retry driver -/

/-- If the body succeeds on its first execution, the driver stops after
one attempt. -/
theorem celeryRun_ok {σ α : Type} (body : Nat → σ → Except String α × σ)
    (r b : Nat) (st : σ) (a : α) (st' : σ) (h : body r st = (.ok a, st')) :
    celeryRun body r b st = ((r + 1, .ok a), st') := by
  cases b <;> simp [celeryRun, h]

/-- If the body fails on every attempt while leaving the state `st`
untouched, the driver performs `budget + 1` executions and ends with the
last attempt's error, leaving the state untouched. -/
theorem celeryRun_error_fix {σ α : Type} (body : Nat → σ → Except String α × σ)
    (st : σ) (e : Nat → String) (h : ∀ i, body i st = (.error (e i), st)) :
    ∀ (b r : Nat), celeryRun body r b st = ((r + b + 1, .error (e (r + b))), st) := by
  intro b
  induction b with
  | zero =>
      intro r
      simp [celeryRun, h r]
  | succ n ih =>
      intro r
      have hstep : celeryRun body r (n + 1) st = celeryRun body (r + 1) n st := by
        simp [celeryRun, h r]
      rw [hstep, ih (r + 1)]
      have harith : r + 1 + n = r + (n + 1) := by omega
      rw [harith]

/-- The driver never performs more than `budget + 1` executions, whatever
the body does. -/
theorem celeryRun_attempts_le {σ α : Type} (body : Nat → σ → Except String α × σ) :
    ∀ (b r : Nat) (st : σ), (celeryRun body r b st).1.1 ≤ r + b + 1 := by
  intro b
  induction b with
  | zero =>
      intro r st
      rcases hb : body r st with ⟨out, st'⟩
      simp [celeryRun, hb]
  | succ n ih =>
      intro r st
      rcases hb : body r st with ⟨out, st'⟩
      cases out with
      | ok a =>
          simp [celeryRun, hb]
          try omega
      | error e =>
          have hrec := ih (r + 1) st'
          simp [celeryRun, hb]
          omega

end VoiceFlow

namespace VoiceFlow

/-! ## Claim theorems: result lookup -/

/-- C2 (counterexample): looking up a job id that was never submitted does
not fail — the gateway's handler has no not-found branch, and Celery's
`AsyncResult` reports an id absent from the result backend as PENDING, so
`get_task_result` returns a Pending `TaskResultResponse` for the unknown
id "ghost-job". -/
theorem unknown_job_pending_counterexample :
    get_task_result id "ghost-job" (asyncResultState (fun _ => none) "ghost-job")
      = { task_id := "ghost-job", status := TaskStatus.pending } := rfl

/-- C2 (amended): for every job id unknown to the result backend,
`GetResult` returns `TaskState{status: Pending}` (with no result and no
error) instead of failing with a NotFoundError. -/
theorem unknown_job_returns_pending (backend : String → Option CeleryState)
    (presign : String → String) (task_id : String) (h : backend task_id = none) :
    get_task_result presign task_id (asyncResultState backend task_id)
      = { task_id := task_id, status := TaskStatus.pending } := by
  simp [asyncResultState, h, get_task_result]

/-- Witness for `unknown_job_returns_pending` on an empty backend. -/
theorem unknown_job_returns_pending_witness :
    get_task_result id "ghost-2" (asyncResultState (fun _ => none) "ghost-2")
      = { task_id := "ghost-2", status := TaskStatus.pending } :=
  unknown_job_returns_pending (fun _ => none) id "ghost-2" rfl

/-- The mutual-exclusivity invariant of `TaskResultResponse`: a result
field (transcribed text or audio URL) is populated only on SUCCESS, the
error message only on FAILED, never both together. -/
def resultErrorExclusive (r : TaskResultResponse) : Prop :=
  (r.transcribed_text ≠ none ∨ r.audio_url ≠ none → r.status = TaskStatus.success) ∧
  (r.error_message ≠ none → r.status = TaskStatus.failed) ∧
  ¬((r.transcribed_text ≠ none ∨ r.audio_url ≠ none) ∧ r.error_message ≠ none)

/-- C9: every response `get_task_result` can produce keeps `result` and
`errorMessage` mutually exclusive: the PENDING branch populates neither,
the two FAILED branches populate only `error_message`, and the SUCCESS
branch populates only the result fields. -/
theorem result_and_error_mutually_exclusive (presign : String → String)
    (task_id : String) (st : CeleryState) :
    resultErrorExclusive (get_task_result presign task_id st) := by
  cases st <;> simp [get_task_result, resultErrorExclusive]

end VoiceFlow

namespace VoiceFlow

/-! ## Claim theorems: retry budget and cleanup scheduling -/

/-- An all-empty initial system state. -/
def initialState : SysState :=
  { unprocessed := fun _ => none
    processed := fun _ => none
    redisLists := fun _ => []
    redisTriggers := fun _ => none }

/-- C4 (counterexample): with `max_retries=3`, a job whose backend call
fails on exactly the first three attempts is attempted a *fourth* time,
and here that fourth attempt succeeds: after three consecutive backend
invocation failures the final outcome is Success after 4 attempts — not
a Failed state reached with no fourth attempt. -/
theorem three_failures_then_fourth_attempt :
    (process_pipeline (fun _ => "") (fun _ => [0])
        (fun i => if i < 3 then some "service down" else none)
        3600 "job-4" "t2v" { text := some "hi" } initialState).1
      = (4, .ok { output_object_name := some "job-4.wav" }) := rfl

/-- C4 (amended): `max_retries=3` means one initial execution plus three
retries.  A backend that fails on every attempt causes exactly four
processing attempts; the task then ends FAILED carrying the non-empty
`"HTTP Error: ..."` message of the last attempt, which `get_task_result`
surfaces as a Failed TaskState with `errorMessage` populated; and no
fifth attempt is ever made, whatever the failure pattern. -/
theorem retries_exhausted_after_four_attempts (whisper : List Nat → String)
    (chatterbox : String → List Nat) (detail : Nat → String)
    (presign : String → String) (ttl : Nat) (task_id mode : String)
    (input_data : InputData) (st : SysState) (svcFail : Nat → Option String) :
    process_pipeline whisper chatterbox (fun i => some (detail i)) ttl task_id mode input_data st
      = ((4, .error ("HTTP Error: " ++ detail 3)), st) ∧
    "HTTP Error: " ++ detail 3 ≠ "" ∧
    (get_task_result presign task_id
        (terminalCeleryState (.error ("HTTP Error: " ++ detail 3)))).status
      = TaskStatus.failed ∧
    (get_task_result presign task_id
        (terminalCeleryState (.error ("HTTP Error: " ++ detail 3)))).error_message
      = some ("HTTP Error: " ++ detail 3) ∧
    (process_pipeline whisper chatterbox svcFail ttl task_id mode input_data st).1.1 ≤ 4 := by
  refine ⟨?_, ?_, rfl, rfl, ?_⟩
  · have h : ∀ i, process_pipeline_body whisper chatterbox (fun j => some (detail j))
        ttl task_id mode input_data i st = (.error ("HTTP Error: " ++ detail i), st) := by
      intro i
      simp [process_pipeline_body]
    simpa [process_pipeline, MAX_RETRIES] using
      celeryRun_error_fix _ st (fun i => "HTTP Error: " ++ detail i) h 3 0
  · intro hcontra
    have hlen := congrArg String.length hcontra
    simp [String.length_append] at hlen
    have h12 : "HTTP Error: ".length = 12 := rfl
    obtain ⟨h1, h2⟩ := hlen
    omega
  · simpa [process_pipeline, MAX_RETRIES] using
      celeryRun_attempts_le
        (process_pipeline_body whisper chatterbox svcFail ttl task_id mode input_data) 3 0 st

end VoiceFlow

namespace VoiceFlow

/-! ## Claim theorems: cleanup scheduling -/

/-- `_schedule_cleanup` never touches the unprocessed bucket. -/
theorem schedule_cleanup_unprocessed (ttl : Nat) (task_id : String)
    (input_data : InputData) (result_data : PipelineResult) (st : SysState) :
    (_schedule_cleanup ttl task_id input_data result_data st).unprocessed
      = st.unprocessed := by
  simp only [_schedule_cleanup]
  split <;> rfl

/-- `_schedule_cleanup` never touches the processed bucket. -/
theorem schedule_cleanup_processed (ttl : Nat) (task_id : String)
    (input_data : InputData) (result_data : PipelineResult) (st : SysState) :
    (_schedule_cleanup ttl task_id input_data result_data st).processed
      = st.processed := by
  simp only [_schedule_cleanup]
  split <;> rfl

/-- One T2V attempt with the backend reachable: synthesize, upload
`{task_id}.wav`, schedule cleanup, return the result dict. -/
theorem process_pipeline_body_t2v (whisper : List Nat → String)
    (chatterbox : String → List Nat) (ttl : Nat) (task_id : String)
    (input_data : InputData) (text : String) (attempt : Nat) (st : SysState)
    (ht : input_data.text = some text) :
    process_pipeline_body whisper chatterbox (fun _ => none) ttl task_id "t2v"
        input_data attempt st
      = (.ok { output_object_name := some (task_id ++ ".wav") },
         _schedule_cleanup ttl task_id input_data
           { output_object_name := some (task_id ++ ".wav") }
           { st with processed :=
               putObject st.processed (task_id ++ ".wav") (chatterbox text) }) := by
  simp [process_pipeline_body, ht, synthesize_speech]

/-- One V2T attempt with the input object present and the backend
reachable: fetch, transcribe, schedule cleanup, return the result dict. -/
theorem process_pipeline_body_v2t (whisper : List Nat → String)
    (chatterbox : String → List Nat) (ttl : Nat) (task_id : String)
    (input_data : InputData) (name : String) (audio_bytes : List Nat)
    (attempt : Nat) (st : SysState)
    (hn : input_data.input_object_name = some name)
    (hb : st.unprocessed name = some audio_bytes) :
    process_pipeline_body whisper chatterbox (fun _ => none) ttl task_id "v2t"
        input_data attempt st
      = (.ok { transcribed_text := some (whisper audio_bytes) },
         _schedule_cleanup ttl task_id input_data
           { transcribed_text := some (whisper audio_bytes) } st) := by
  simp [process_pipeline_body, hn, stt_transcribe, hb]

/-- C3 (counterexample): a job whose backend call fails on every attempt
ends in a Failed terminal state with *no* CleanupRecord: the TTL trigger
key `cleanup:job-9` is never set and the file list `files:job-9` stays
empty, contradicting "records a CleanupRecord ... whether it ends in
Success or Failed". -/
theorem failed_job_records_no_cleanup :
    (process_pipeline (fun _ => "") (fun _ => []) (fun _ => some "backend down")
        3600 "job-9" "t2v" { text := some "hi" } initialState).1.2
      = .error "HTTP Error: backend down" ∧
    (process_pipeline (fun _ => "") (fun _ => []) (fun _ => some "backend down")
        3600 "job-9" "t2v" { text := some "hi" } initialState).2.redisTriggers
        "cleanup:job-9" = none ∧
    (process_pipeline (fun _ => "") (fun _ => []) (fun _ => some "backend down")
        3600 "job-9" "t2v" { text := some "hi" } initialState).2.redisLists
        "files:job-9" = [] :=
  ⟨rfl, rfl, rfl⟩

/-- C3 (amended): the Dispatcher records the CleanupRecord only on a
successful run — `_schedule_cleanup` executes right after the backend
result is assembled and before the success result is returned, setting the
TTL trigger `cleanup:{task_id}` and appending every artifact created for
the job to `files:{task_id}` — whereas a job that exhausts its retries and
ends Failed records nothing: its Redis state is exactly the initial one. -/
theorem cleanup_recorded_only_on_success (whisper : List Nat → String)
    (chatterbox : String → List Nat) (d : String) (ttl : Nat)
    (task_id mode text : String) (input_data : InputData) (st : SysState) :
    (process_pipeline whisper chatterbox (fun _ => none) ttl task_id "t2v"
        { text := some text } st).2.redisTriggers ("cleanup:" ++ task_id)
      = some (ttl, "1") ∧
    (process_pipeline whisper chatterbox (fun _ => none) ttl task_id "t2v"
        { text := some text } st).2.redisLists ("files:" ++ task_id)
      = st.redisLists ("files:" ++ task_id) ++ [task_id ++ ".wav"] ∧
    (process_pipeline whisper chatterbox (fun _ => none) ttl task_id "t2v"
        { text := some text } st).1.2
      = .ok { output_object_name := some (task_id ++ ".wav") } ∧
    process_pipeline whisper chatterbox (fun _ => some d) ttl task_id mode
        input_data st
      = ((4, .error ("HTTP Error: " ++ d)), st) := by
  have hbody := process_pipeline_body_t2v whisper chatterbox ttl task_id
    { text := some text } text 0 st rfl
  have hrun := celeryRun_ok
    (process_pipeline_body whisper chatterbox (fun _ => none) ttl task_id "t2v"
      { text := some text }) 0 MAX_RETRIES st _ _ hbody
  have hfail : ∀ i, process_pipeline_body whisper chatterbox (fun _ => some d)
      ttl task_id mode input_data i st = (.error ("HTTP Error: " ++ d), st) := by
    intro i
    simp [process_pipeline_body]
  refine ⟨?_, ?_, ?_, ?_⟩
  · simp only [process_pipeline]
    rw [hrun]
    simp [_schedule_cleanup]
  · simp only [process_pipeline]
    rw [hrun]
    simp [_schedule_cleanup]
  · simp only [process_pipeline]
    rw [hrun]
  · simpa [process_pipeline, MAX_RETRIES] using
      celeryRun_error_fix _ st (fun _ => "HTTP Error: " ++ d) hfail 3 0

end VoiceFlow

namespace VoiceFlow

/-! ## Claim theorems: redelivery idempotence -/

/-- A delivery of one work item with the backend reachable on every
attempt (`svcFail` constantly none): `process_pipeline` as executed when
nothing but the job's own data decides the outcome. -/
def dispatchOnce (whisper : List Nat → String) (chatterbox : String → List Nat)
    (ttl : Nat) (task_id mode : String) (input_data : InputData)
    (st : SysState) : (Nat × Except String PipelineResult) × SysState :=
  process_pipeline whisper chatterbox (fun _ => none) ttl task_id mode input_data st

/-- Re-putting the same bytes under the same object name is a no-op:
MinIO writes are last-write-wins. -/
theorem putObject_idem (bucket : String → Option (List Nat)) (name : String)
    (data : List Nat) :
    putObject (putObject bucket name data) name data
      = putObject bucket name data := by
  funext k
  by_cases h : k = name <;> simp [putObject, h]

/-- A delivery whose every attempt fails with the same message while
leaving the state untouched performs four attempts and returns the error,
with the state unchanged. -/
theorem dispatch_fixed_error (whisper : List Nat → String)
    (chatterbox : String → List Nat) (ttl : Nat) (task_id mode : String)
    (input_data : InputData) (e : String) (st : SysState)
    (h : ∀ i, process_pipeline_body whisper chatterbox (fun _ => none) ttl
        task_id mode input_data i st = (.error e, st)) :
    dispatchOnce whisper chatterbox ttl task_id mode input_data st
      = ((4, .error e), st) := by
  simpa [dispatchOnce, process_pipeline, MAX_RETRIES] using
    celeryRun_error_fix _ st (fun _ => e) h 3 0

/-- C6: redelivering the same work item (same jobId, mode, input) is
idempotent: the second delivery produces the same terminal outcome as the
first, and neither bucket changes between the first and the second
delivery — no duplicate artifacts accumulate under the jobId-derived
names, because every upload is keyed by the jobId; in particular a
TextToSpeech job's output object name is `task_id ++ ".wav"`, a function
of the jobId alone, so a repeated run overwrites rather than adds. -/
theorem redelivery_idempotent (whisper : List Nat → String)
    (chatterbox : String → List Nat) (ttl : Nat) (task_id mode : String)
    (input_data : InputData) (st : SysState) :
    (dispatchOnce whisper chatterbox ttl task_id mode input_data
        (dispatchOnce whisper chatterbox ttl task_id mode input_data st).2).1.2
      = (dispatchOnce whisper chatterbox ttl task_id mode input_data st).1.2 ∧
    (dispatchOnce whisper chatterbox ttl task_id mode input_data
        (dispatchOnce whisper chatterbox ttl task_id mode input_data st).2).2.processed
      = (dispatchOnce whisper chatterbox ttl task_id mode input_data st).2.processed ∧
    (dispatchOnce whisper chatterbox ttl task_id mode input_data
        (dispatchOnce whisper chatterbox ttl task_id mode input_data st).2).2.unprocessed
      = (dispatchOnce whisper chatterbox ttl task_id mode input_data st).2.unprocessed ∧
    ∀ t : String,
      (dispatchOnce whisper chatterbox ttl task_id "t2v" { text := some t } st).1.2
        = .ok { output_object_name := some (task_id ++ ".wav") } := by
  have hdet : ∀ t : String,
      (dispatchOnce whisper chatterbox ttl task_id "t2v" { text := some t } st).1.2
        = .ok { output_object_name := some (task_id ++ ".wav") } := by
    intro t
    have hbody := process_pipeline_body_t2v whisper chatterbox ttl task_id
      { text := some t } t 0 st rfl
    have hrun := celeryRun_ok
      (process_pipeline_body whisper chatterbox (fun _ => none) ttl task_id "t2v"
        { text := some t }) 0 MAX_RETRIES st _ _ hbody
    simp only [dispatchOnce, process_pipeline]
    rw [hrun]
  have htriple :
      (dispatchOnce whisper chatterbox ttl task_id mode input_data
          (dispatchOnce whisper chatterbox ttl task_id mode input_data st).2).1.2
        = (dispatchOnce whisper chatterbox ttl task_id mode input_data st).1.2 ∧
      (dispatchOnce whisper chatterbox ttl task_id mode input_data
          (dispatchOnce whisper chatterbox ttl task_id mode input_data st).2).2.processed
        = (dispatchOnce whisper chatterbox ttl task_id mode input_data st).2.processed ∧
      (dispatchOnce whisper chatterbox ttl task_id mode input_data
          (dispatchOnce whisper chatterbox ttl task_id mode input_data st).2).2.unprocessed
        = (dispatchOnce whisper chatterbox ttl task_id mode input_data st).2.unprocessed := by
    by_cases hv2t : mode = "v2t"
    · subst hv2t
      cases hn : input_data.input_object_name with
      | none =>
          have h1 := dispatch_fixed_error whisper chatterbox ttl task_id "v2t" input_data
            "input_object_name is required for V2T mode" st
            (fun i => by simp [process_pipeline_body, hn])
          rw [h1]
          rw [h1]
          exact ⟨rfl, rfl, rfl⟩
      | some name =>
          cases hb : st.unprocessed name with
          | none =>
              have h1 := dispatch_fixed_error whisper chatterbox ttl task_id "v2t" input_data
                ("HTTP Error: " ++ ("Could not retrieve file: " ++ name)) st
                (fun i => by simp [process_pipeline_body, hn, stt_transcribe, hb])
              rw [h1]
              rw [h1]
              exact ⟨rfl, rfl, rfl⟩
          | some audio_bytes =>
              have hbody1 := process_pipeline_body_v2t whisper chatterbox ttl task_id
                input_data name audio_bytes 0 st hn hb
              have h1 := celeryRun_ok
                (process_pipeline_body whisper chatterbox (fun _ => none) ttl task_id
                  "v2t" input_data) 0 MAX_RETRIES st _ _ hbody1
              have hb1 : (_schedule_cleanup ttl task_id input_data
                  { transcribed_text := some (whisper audio_bytes) } st).unprocessed name
                  = some audio_bytes := by
                rw [schedule_cleanup_unprocessed]
                exact hb
              have hbody2 := process_pipeline_body_v2t whisper chatterbox ttl task_id
                input_data name audio_bytes 0
                (_schedule_cleanup ttl task_id input_data
                  { transcribed_text := some (whisper audio_bytes) } st) hn hb1
              have h2 := celeryRun_ok
                (process_pipeline_body whisper chatterbox (fun _ => none) ttl task_id
                  "v2t" input_data) 0 MAX_RETRIES
                (_schedule_cleanup ttl task_id input_data
                  { transcribed_text := some (whisper audio_bytes) } st) _ _ hbody2
              simp only [dispatchOnce, process_pipeline]
              rw [h1]
              simp only []
              rw [h2]
              refine ⟨rfl, ?_, ?_⟩
              · simp [schedule_cleanup_processed]
              · simp [schedule_cleanup_unprocessed]
    · by_cases ht2v : mode = "t2v"
      · subst ht2v
        cases ht : input_data.text with
        | none =>
            have h1 := dispatch_fixed_error whisper chatterbox ttl task_id "t2v" input_data
              "text is required for T2V mode" st
              (fun i => by simp [process_pipeline_body, ht])
            rw [h1]
            rw [h1]
            exact ⟨rfl, rfl, rfl⟩
        | some t =>
            have hbody1 := process_pipeline_body_t2v whisper chatterbox ttl task_id
              input_data t 0 st ht
            have h1 := celeryRun_ok
              (process_pipeline_body whisper chatterbox (fun _ => none) ttl task_id
                "t2v" input_data) 0 MAX_RETRIES st _ _ hbody1
            have hbody2 := process_pipeline_body_t2v whisper chatterbox ttl task_id
              input_data t 0
              (_schedule_cleanup ttl task_id input_data
                { output_object_name := some (task_id ++ ".wav") }
                { st with processed :=
                    putObject st.processed (task_id ++ ".wav") (chatterbox t) }) ht
            have h2 := celeryRun_ok
              (process_pipeline_body whisper chatterbox (fun _ => none) ttl task_id
                "t2v" input_data) 0 MAX_RETRIES
              (_schedule_cleanup ttl task_id input_data
                { output_object_name := some (task_id ++ ".wav") }
                { st with processed :=
                    putObject st.processed (task_id ++ ".wav") (chatterbox t) }) _ _ hbody2
            simp only [dispatchOnce, process_pipeline]
            rw [h1]
            rw [h2]
            refine ⟨rfl, ?_, ?_⟩
            · simp only [schedule_cleanup_processed]
              simp [putObject_idem]
            · simp [schedule_cleanup_unprocessed]
      · have h1 := dispatch_fixed_error whisper chatterbox ttl task_id mode input_data
          ("Unsupported mode: " ++ mode) st
          (fun i => by simp [process_pipeline_body, hv2t, ht2v])
        rw [h1]
        rw [h1]
        exact ⟨rfl, rfl, rfl⟩
  exact ⟨htriple.1, htriple.2.1, htriple.2.2, hdet⟩

end VoiceFlow

namespace VoiceFlow

/-! ## services/cleanup-worker/main.py -/

/-- Character-list version of Python's `str.startswith`, used to build the
substring test below. -/
def startsWithChars : List Char → List Char → Bool
  | [], _ => true
  | _ :: _, [] => false
  | p :: ps, c :: cs => p == c && startsWithChars ps cs

/-- Python's `pat in s` membership test, on character lists. -/
def containsChars (pat : List Char) : List Char → Bool
  | [] => pat.isEmpty
  | c :: rest => startsWithChars pat (c :: rest) || containsChars pat rest

/-- Python's `pat in s` on strings. -/
def strContainsSub (s pat : String) : Bool :=
  containsChars pat.toList s.toList

/-- The two MinIO buckets of the deployment. -/
inductive Bucket where
  | unprocessed
  | processed
deriving DecidableEq, Repr

/-- The cleanup worker's bucket choice:
`MINIO_BUCKET_UNPROCESSED if "input" in object_name else
MINIO_BUCKET_PROCESSED`. -/
def bucketFor (object_name : String) : Bucket :=
  if strContainsSub object_name "input" then .unprocessed else .processed

/-- One `remove_object` call issued by the cleanup loop: the object name,
the bucket the call went to, and the injected outcome of the delete
(`false` covers any failure, including "already deleted"; the loop wraps
each call in try/except, so the outcome influences nothing). -/
structure DeleteAttempt where
  object_name : String
  bucket : Bucket
  ok : Bool
deriving DecidableEq, Repr

/-- `process_cleanup_task`: read the file list `files:{task_id}` (an
absent Redis list reads as `[]`); if it is empty, return; otherwise issue
one delete per listed artifact, in order, against the bucket chosen by
the `"input" in object_name` test, and finally delete the file-list
record.  Returns the delete calls issued and the resulting Redis lists
state. -/
def process_cleanup_task (task_id : String) (deleteOk : String → Bool)
    (redisLists : String → List String) :
    List DeleteAttempt × (String → List String) :=
  let files_key := "files:" ++ task_id
  let files_to_delete := redisLists files_key
  if files_to_delete = [] then ([], redisLists)
  else
    (files_to_delete.map (fun n => ⟨n, bucketFor n, deleteOk n⟩),
     fun k => if k = files_key then [] else redisLists k)

/-- C7: the cleanup worker attempts a delete for every artifact in the
file list — the attempt sequence is exactly the file list, whatever the
per-delete outcomes are, so one failing delete never suppresses the
remaining attempts — and after the loop the file-list record is removed
(reads as the empty list). -/
theorem cleanup_attempts_all_and_removes_record (task_id : String)
    (deleteOk : String → Bool) (redisLists : String → List String) :
    (process_cleanup_task task_id deleteOk redisLists).1.map
        (fun a => a.object_name) = redisLists ("files:" ++ task_id) ∧
    (process_cleanup_task task_id deleteOk redisLists).2 ("files:" ++ task_id)
      = [] := by
  by_cases h : redisLists ("files:" ++ task_id) = [] <;>
    simp [process_cleanup_task, h, List.map_map, Function.comp_def]

/-- C10: the Cleanup Scheduler routes each delete by a substring test —
the unprocessed-input bucket exactly when the object name contains
"input", the processed-output bucket otherwise.  Input uploads are named
`{task_id}_{filename}` (read off `transcribe_audio`'s upload list), so an
input artifact whose name does not contain "input" has its delete issued
against the processed bucket — the wrong one. -/
theorem cleanup_bucket_chosen_by_input_substring (name task_id filename : String)
    (audio : UploadFileIn)
    (h : strContainsSub (task_id ++ "_" ++ filename) "input" = false) :
    (bucketFor name = Bucket.unprocessed ↔ strContainsSub name "input" = true) ∧
    (transcribe_audio task_id audio (.ok ())).uploaded
      = [(task_id ++ "_" ++ audio.filename, audio.content)] ∧
    bucketFor (task_id ++ "_" ++ filename) = Bucket.processed := by
  refine ⟨?_, rfl, ?_⟩
  · by_cases hc : strContainsSub name "input" <;> simp [bucketFor, hc]
  · simp [bucketFor, h]

/-- Witness for `cleanup_bucket_chosen_by_input_substring`: the upload of
"recording.wav" under job id "1234" is named "1234_recording.wav", which
does not contain "input", so its delete goes to the processed bucket. -/
theorem cleanup_bucket_chosen_by_input_substring_witness :
    (bucketFor "1234_recording.wav" = Bucket.unprocessed
        ↔ strContainsSub "1234_recording.wav" "input" = true) ∧
    (transcribe_audio "1234" ⟨"recording.wav", [7]⟩ (.ok ())).uploaded
      = [("1234_recording.wav", [7])] ∧
    bucketFor ("1234" ++ "_" ++ "recording.wav") = Bucket.processed := by
  have h := cleanup_bucket_chosen_by_input_substring "1234_recording.wav"
    "1234" "recording.wav" ⟨"recording.wav", [7]⟩ (by decide)
  exact ⟨h.1, h.2.1, h.2.2⟩

end VoiceFlow

namespace VoiceFlow

/-! ## client-library/voiceflow/async_client.py — polling -/

/-- What one call to the client can end in: a returned result, a raised
`VoiceFlowError` (backend-reported failure), or a raised
`TaskTimeoutError` — a distinct exception class. -/
inductive PollOutcome where
  | ok (r : TaskResultResponse)
  | voiceFlowError (msg : String)
  | taskTimeoutError (msg : String)
deriving DecidableEq, Repr

/-- The body of `_poll_synthesis_result`'s while-loop, with the remaining
number of in-budget polls as fuel: each iteration reads the task result
(`obs i` is what the i-th `get_task_result` call observes — the loop only
reads, it sends no cancellation), returns it on SUCCESS, raises
`VoiceFlowError(f"Synthesis failed: {error_message}")` on FAILED, and
otherwise sleeps and re-checks; once the wall-clock budget is exhausted it
raises `TaskTimeoutError`. -/
def pollLoopAux (obs : Nat → TaskResultResponse) (task_id : String)
    (timeoutSecs : Nat) (i : Nat) : Nat → PollOutcome
  | 0 => .taskTimeoutError ("Synthesis task " ++ task_id ++ " timed out after "
      ++ toString timeoutSecs ++ " seconds")
  | fuel + 1 =>
    match (obs i).status with
    | .success => .ok (obs i)
    | .failed => .voiceFlowError ("Synthesis failed: "
        ++ ((obs i).error_message.getD "None"))
    | .pending => pollLoopAux obs task_id timeoutSecs (i + 1) fuel

/-- The number of polls the wall-clock budget admits: polls happen at
elapsed times 0, interval, 2·interval, … while elapsed < timeout, i.e.
⌈timeout / interval⌉ polls. -/
def numPolls (timeoutSecs interval : Nat) : Nat :=
  (timeoutSecs + interval - 1) / interval

/-- `_poll_synthesis_result(task_id, timeout)` over the observation
sequence `obs`, polling every `interval` seconds. -/
def _poll_synthesis_result (obs : Nat → TaskResultResponse) (task_id : String)
    (timeoutSecs interval : Nat) : PollOutcome :=
  pollLoopAux obs task_id timeoutSecs 0 (numPolls timeoutSecs interval)

/-- If every in-budget poll observes PENDING, the loop times out. -/
theorem pollLoopAux_pending (obs : Nat → TaskResultResponse) (task_id : String)
    (timeoutSecs : Nat) :
    ∀ (fuel i : Nat),
      (∀ j, j < fuel → (obs (i + j)).status = TaskStatus.pending) →
      pollLoopAux obs task_id timeoutSecs i fuel
        = .taskTimeoutError ("Synthesis task " ++ task_id ++ " timed out after "
            ++ toString timeoutSecs ++ " seconds") := by
  intro fuel
  induction fuel with
  | zero =>
      intro i h
      rfl
  | succ n ih =>
      intro i h
      have h0 : (obs i).status = TaskStatus.pending := by
        simpa using h 0 (by omega)
      simp only [pollLoopAux, h0]
      exact ih (i + 1) (fun j hj => by
        have hshift : i + 1 + j = i + (j + 1) := by omega
        rw [hshift]
        exact h (j + 1) (by omega))

/-- C8: when no terminal state appears within the caller's wall-clock
budget, the client raises `TaskTimeoutError` — an outcome distinct from
every `VoiceFlowError` raised for a backend-reported FAILED state — and
the underlying job is untouched (polling only reads): once the backend
later records success for the same task id, `get_task_result` returns a
SUCCESS TaskState. -/
theorem poll_timeout_distinct_and_not_cancelling
    (obs : Nat → TaskResultResponse) (task_id : String)
    (timeoutSecs interval : Nat) (presign : String → String)
    (result : PipelineResult)
    (h : ∀ i, i < numPolls timeoutSecs interval →
        (obs i).status = TaskStatus.pending) :
    _poll_synthesis_result obs task_id timeoutSecs interval
      = .taskTimeoutError ("Synthesis task " ++ task_id ++ " timed out after "
          ++ toString timeoutSecs ++ " seconds") ∧
    (∀ m m', PollOutcome.taskTimeoutError m ≠ PollOutcome.voiceFlowError m') ∧
    (get_task_result presign task_id (CeleryState.success result)).status
      = TaskStatus.success := by
  refine ⟨?_, ?_, rfl⟩
  · exact pollLoopAux_pending obs task_id timeoutSecs
      (numPolls timeoutSecs interval) 0 (fun j hj => by simpa using h j hj)
  · intro m m'
    simp

/-- Witness for `poll_timeout_distinct_and_not_cancelling`: a job that is
still PENDING at both polls of a 4-second budget with a 2-second interval
times out; the same task id read after completion reports SUCCESS. -/
theorem poll_timeout_distinct_and_not_cancelling_witness :
    _poll_synthesis_result (fun _ => { task_id := "job-8", status := .pending })
        "job-8" 4 2
      = .taskTimeoutError ("Synthesis task " ++ "job-8" ++ " timed out after "
          ++ toString 4 ++ " seconds") ∧
    (∀ m m', PollOutcome.taskTimeoutError m ≠ PollOutcome.voiceFlowError m') ∧
    (get_task_result id "job-8"
        (CeleryState.success { transcribed_text := some "hi" })).status
      = TaskStatus.success :=
  poll_timeout_distinct_and_not_cancelling
    (fun _ => { task_id := "job-8", status := .pending }) "job-8" 4 2 id
    { transcribed_text := some "hi" } (fun _ _ => rfl)

end VoiceFlow
